import Mathlib

/-!
Verification development for the agent-dock backend core
(`backend/app/services/{nl_service,agent_service,tool_service}.py`).

The Python services are shallowly embedded as executable Lean functions:
pure helpers become Lean functions, database access becomes explicit
state passing over a `DB` record, outbound HTTP becomes an oracle
environment `Env` plus an explicit trace of network calls, and Python
exceptions become `Except` values.  Machine integers in this code are
unbounded Python `int`s and are modelled as `Int`.
-/

set_option maxRecDepth 4000

/-! ## JSON values

Model of the Python values produced by `json.loads`: `null`, booleans,
integers (`int`), non-integral numerics kept as their source lexeme
(`float` literals; no floating-point arithmetic is ever performed on
them in the embedded code), strings, lists and dicts.  Dicts keep their
keys unique and in first-insertion order, as Python dicts do. -/

inductive Json where
  | null : Json
  | bool (b : Bool) : Json
  | num (n : Int) : Json
  | fnum (lit : String) : Json
  | str (s : String) : Json
  | arr (xs : List Json) : Json
  | obj (kvs : List (String × Json)) : Json

/-- The characters `{`, `}` and the backtick, used heavily by the
extraction regexes. -/
def lbrace : Char := Char.ofNat 123

def rbrace : Char := Char.ofNat 125

def btick : Char := Char.ofNat 96

/-- Python dict insertion: a later binding for an existing key replaces
the value in place (keeping the key's original position); a new key is
appended. -/
def dictInsert (kvs : List (String × Json)) (k : String) (v : Json) :
    List (String × Json) :=
  if kvs.any (fun kv => kv.1 == k) then
    kvs.map (fun kv => if kv.1 == k then (k, v) else kv)
  else
    kvs ++ [(k, v)]

/-- Model of `d.get(k)` on a parsed JSON object: `Json.null` models Python's
`None` result for a missing key.  (Callers in the embedded code only
apply this to `Json.obj` values.) -/
def dictGet (j : Json) (k : String) : Json :=
  match j with
  | Json.obj kvs =>
      match kvs.find? (fun kv => kv.1 == k) with
      | some kv => kv.2
      | none => Json.null
  | _ => Json.null

/-- Model of `d[k] = v` on a parsed JSON object; other values are unchanged. -/
def dictSet (j : Json) (k : String) (v : Json) : Json :=
  match j with
  | Json.obj kvs => Json.obj (dictInsert kvs k v)
  | _ => j

/-- A float literal denotes zero iff every significand digit is `0`
(e.g. `0.0`, `-0.000`, `0e10`); used only for Python truthiness. -/
def floatLitIsZero (lit : String) : Bool :=
  let mantissa := lit.toList.takeWhile (fun c => c != 'e' && c != 'E')
  mantissa.all (fun c => !c.isDigit || c == '0')

/-- Python truthiness of a decoded JSON value: `None`, `False`, `0`,
`0.0`, `""`, `[]` and `{}` are falsy, everything else truthy. -/
def jsonTruthy (j : Json) : Bool :=
  match j with
  | Json.null => false
  | Json.bool b => b
  | Json.num n => n != 0
  | Json.fnum lit => !floatLitIsZero lit
  | Json.str s => s != ""
  | Json.arr xs => !xs.isEmpty
  | Json.obj kvs => !kvs.isEmpty

/-! ## `json.loads`

A model of Python's strict JSON decoder on `str` input: optional
whitespace around a single value; literals `null`/`true`/`false` plus
the non-strict `NaN`/`Infinity`/`-Infinity` that `json.loads` accepts
by default; strings with the JSON escapes (`\uXXXX` surrogate pairing
is not modelled — each escape yields one scalar); numbers without
leading zeros; arrays and objects without trailing commas.  A parse
failure models `json.JSONDecodeError`, the only exception `json.loads`
raises on `str` input. -/

def isJsonWs (c : Char) : Bool :=
  [' ', '\t', '\n', '\r'].contains c

def skipWs : List Char → List Char
  | [] => []
  | c :: cs => if isJsonWs c then skipWs cs else c :: cs

def hexVal (c : Char) : Option Nat :=
  let n := c.toNat
  if n ≥ 48 && n ≤ 57 then some (n - 48)
  else if n ≥ 97 && n ≤ 102 then some (n - 87)
  else if n ≥ 65 && n ≤ 70 then some (n - 55)
  else none

/-- Parse the body of a JSON string (after the opening quote), returning
the decoded characters and the remaining input after the closing quote.
Raw control characters below `0x20` are rejected (strict mode). -/
def parseStrBody (fuel : Nat) (cs : List Char) (acc : List Char) :
    Option (String × List Char) :=
  match fuel with
  | 0 => none
  | fuel + 1 =>
    match cs with
    | [] => none
    | c :: rest =>
      if c == '"' then some (String.mk acc.reverse, rest)
      else if c == '\\' then
        match rest with
        | [] => none
        | e :: rest2 =>
          if e == '"' then parseStrBody fuel rest2 ('"' :: acc)
          else if e == '\\' then parseStrBody fuel rest2 ('\\' :: acc)
          else if e == '/' then parseStrBody fuel rest2 ('/' :: acc)
          else if e == 'b' then parseStrBody fuel rest2 ('\x08' :: acc)
          else if e == 'f' then parseStrBody fuel rest2 ('\x0c' :: acc)
          else if e == 'n' then parseStrBody fuel rest2 ('\n' :: acc)
          else if e == 'r' then parseStrBody fuel rest2 ('\r' :: acc)
          else if e == 't' then parseStrBody fuel rest2 ('\t' :: acc)
          else if e == 'u' then
            match rest2 with
            | h1 :: h2 :: h3 :: h4 :: rest3 =>
              match hexVal h1, hexVal h2, hexVal h3, hexVal h4 with
              | some a, some b, some c', some d =>
                parseStrBody fuel rest3
                  (Char.ofNat (((a * 16 + b) * 16 + c') * 16 + d) :: acc)
              | _, _, _, _ => none
            | _ => none
          else none
      else if c.toNat < 0x20 then none
      else parseStrBody fuel rest (c :: acc)

def takeDigits (cs : List Char) : List Char × List Char :=
  (cs.takeWhile Char.isDigit, cs.dropWhile Char.isDigit)

def digitsToNat (ds : List Char) : Nat :=
  ds.foldl (fun acc c => 10 * acc + (c.toNat - 48)) 0

/-- Parse a JSON number.  Integral lexemes become `Json.num`; lexemes
with a fraction or exponent become `Json.fnum` holding the lexeme. -/
def parseNum (cs : List Char) : Option (Json × List Char) :=
  let (sign, cs1) :=
    match cs with
    | '-' :: rest => (true, rest)
    | _ => (false, cs)
  match takeDigits cs1 with
  | ([], _) => none
  | (ds, cs2) =>
    -- leading zeros are invalid JSON ("01"), a lone "0" is fine
    if ds.length > 1 && ds.headI == '0' then none
    else
      let (fracDigits, cs3) :=
        match cs2 with
        | '.' :: rest =>
          match takeDigits rest with
          | ([], _) => ([], ['.'])  -- force failure below: digits required
          | (fs, rest2) => (fs, rest2)
        | _ => ([], cs2)
      match cs2 with
      | '.' :: rest =>
        match takeDigits rest with
        | ([], _) => none
        | _ =>
          numTail sign ds fracDigits true cs3
      | _ => numTail sign ds [] false cs3
where
  /-- Handle the optional exponent and build the value. -/
  numTail (sign : Bool) (ds fracDigits : List Char) (hasFrac : Bool)
      (cs : List Char) : Option (Json × List Char) :=
    let mkLexeme (expDigits : List Char) (expSign : Option Char) : String :=
      String.mk ((if sign then ['-'] else []) ++ ds ++
        (if hasFrac then '.' :: fracDigits else []) ++
        (match expSign, expDigits with
         | _, [] => []
         | some s, es => 'e' :: s :: es
         | none, es => 'e' :: es))
    match cs with
    | e :: rest =>
      if e == 'e' || e == 'E' then
        let (expSign, rest1) :=
          match rest with
          | '+' :: r => (some '+', r)
          | '-' :: r => (some '-', r)
          | _ => (none, rest)
        match takeDigits rest1 with
        | ([], _) => none
        | (es, rest2) => some (Json.fnum (mkLexeme es expSign), rest2)
      else
        if hasFrac then some (Json.fnum (mkLexeme [] none), cs)
        else
          some (Json.num (if sign then -(digitsToNat ds : Int)
                          else (digitsToNat ds : Int)), cs)
    | [] =>
      if hasFrac then some (Json.fnum (mkLexeme [] none), [])
      else
        some (Json.num (if sign then -(digitsToNat ds : Int)
                        else (digitsToNat ds : Int)), [])

mutual

/-- Parse one JSON value (input already stripped of leading
whitespace). -/
def parseVal (fuel : Nat) (cs : List Char) : Option (Json × List Char) :=
  match fuel with
  | 0 => none
  | fuel + 1 =>
    match cs with
    | [] => none
    | c :: rest =>
      if c == 'n' then
        match cs with
        | 'n' :: 'u' :: 'l' :: 'l' :: rest' => some (Json.null, rest')
        | _ => none
      else if c == 't' then
        match cs with
        | 't' :: 'r' :: 'u' :: 'e' :: rest' => some (Json.bool true, rest')
        | _ => none
      else if c == 'f' then
        match cs with
        | 'f' :: 'a' :: 'l' :: 's' :: 'e' :: rest' => some (Json.bool false, rest')
        | _ => none
      else if c == 'N' then
        match cs with
        | 'N' :: 'a' :: 'N' :: rest' => some (Json.fnum "NaN", rest')
        | _ => none
      else if c == 'I' then
        match cs with
        | 'I' :: 'n' :: 'f' :: 'i' :: 'n' :: 'i' :: 't' :: 'y' :: rest' =>
          some (Json.fnum "Infinity", rest')
        | _ => none
      else if c == '-' then
        match cs with
        | '-' :: 'I' :: 'n' :: 'f' :: 'i' :: 'n' :: 'i' :: 't' :: 'y' :: rest' =>
          some (Json.fnum "-Infinity", rest')
        | _ => parseNum cs
      else if c == '"' then
        (parseStrBody rest.length.succ rest []).map
          (fun p => (Json.str p.1, p.2))
      else if c == '[' then
        match skipWs rest with
        | ']' :: rest' => some (Json.arr [], rest')
        | rest1 => parseArrItems fuel rest1 []
      else if c == lbrace then
        match skipWs rest with
        | r :: rest' =>
          if r == rbrace then some (Json.obj [], rest')
          else parseObjItems fuel (r :: rest') []
        | [] => none
      else parseNum cs

/-- Parse the comma-separated items of a non-empty array, up to and
including the closing bracket. -/
def parseArrItems (fuel : Nat) (cs : List Char) (acc : List Json) :
    Option (Json × List Char) :=
  match fuel with
  | 0 => none
  | fuel + 1 =>
    match parseVal fuel cs with
    | none => none
    | some (v, rest) =>
      match skipWs rest with
      | ',' :: rest1 => parseArrItems fuel (skipWs rest1) (v :: acc)
      | ']' :: rest1 => some (Json.arr (v :: acc).reverse, rest1)
      | _ => none

/-- Parse the comma-separated `"key": value` pairs of a non-empty
object, up to and including the closing brace. -/
def parseObjItems (fuel : Nat) (cs : List Char)
    (acc : List (String × Json)) : Option (Json × List Char) :=
  match fuel with
  | 0 => none
  | fuel + 1 =>
    match cs with
    | '"' :: rest =>
      match parseStrBody rest.length.succ rest [] with
      | none => none
      | some (k, rest1) =>
        match skipWs rest1 with
        | ':' :: rest2 =>
          match parseVal fuel (skipWs rest2) with
          | none => none
          | some (v, rest3) =>
            let acc' := dictInsert acc k v
            match skipWs rest3 with
            | ',' :: rest4 =>
              match skipWs rest4 with
              | '"' :: rest5 => parseObjItems fuel ('"' :: rest5) acc'
              | _ => none
            | r :: rest4 =>
              if r == rbrace then some (Json.obj acc', rest4) else none
            | [] => none
        | _ => none
    | _ => none

end

/-- Model of `json.loads(s)`: `none` models `json.JSONDecodeError`. -/
def json_loads (s : String) : Option Json :=
  match parseVal (s.length + 2) (skipWs s.toList) with
  | some (j, rest) => if (skipWs rest).isEmpty then some j else none
  | none => none

/-! ## Response Extractor (`NaturalLanguageService._extract_json_from_response`)

The regex fallback stages of the extractor.  Each Python `re.search`
is embedded as a direct leftmost-match scan implementing the concrete
pattern's semantics: non-greedy spans pick, for the leftmost viable
start, the earliest close position at which the rest of the pattern
also matches. -/

/-- The class `\s` of the extraction regexes (ASCII): space, tab, LF, CR, VT, FF. -/
def isReWs (c : Char) : Bool :=
  [' ', '\t', '\n', '\r', '\x0b', '\x0c'].contains c

/-- The pattern `(?:\s|$)` after the span captured at close index `j`. -/
def followOk (cs : List Char) (j : Nat) : Bool :=
  match cs[j + 1]? with
  | none => true
  | some c => isReWs c

/-- The substring `cs[i..j]` (inclusive). -/
def strSlice (cs : List Char) (i j : Nat) : String :=
  String.mk ((cs.drop i).take (j - i + 1))

/-- Model of `re.search(r'(O[\s\S]*?C)(?:\s|$)', text)` for an open-char
class `opens` and close-char class `closes` (stages 3, 4 and the final
"anything that looks like JSON" stage): the leftmost start whose
non-greedy span can close, capturing up to the earliest viable close. -/
def spanSearch (cs : List Char) (opens closes : List Char) : Option String :=
  (((List.range cs.length).filterMap (fun i =>
    match cs[i]? with
    | some c =>
      if opens.contains c then
        match (List.range cs.length).find? (fun j =>
            decide (i < j) &&
            (match cs[j]? with
             | some d => closes.contains d && followOk cs j
             | none => false)) with
        | some j => some (i, j)
        | none => none
      else none
    | none => none)).head?).map (fun p => strSlice cs p.1 p.2)

/-- Does `pat` occur at index `i` of `cs`? -/
def strPrefixAt (cs : List Char) (i : Nat) : List Char → Bool
  | [] => true
  | p :: ps =>
    match cs[i]? with
    | some c => c == p && strPrefixAt cs (i + 1) ps
    | none => false

/-- First index `≥ i` holding a non-`\s` character (or `cs.length`). -/
def skipReWsIdx (cs : List Char) : Nat → Nat → Nat
  | 0, i => i
  | fuel + 1, i =>
    match cs[i]? with
    | some c => if isReWs c then skipReWsIdx cs fuel (i + 1) else i
    | none => i

/-- After a candidate close at `j`: `\s*` then the literal three
backticks closing the fence. -/
def fenceAfterOk (cs : List Char) (j : Nat) : Bool :=
  strPrefixAt cs (skipReWsIdx cs cs.length (j + 1)) [btick, btick, btick]

/-- Attempt the fenced-block pattern
`` ```(?:json)?\s*({.*?}|[\[\{][\s\S]*?[\]\}])\s*``` `` (DOTALL) at start
index `i`: three backticks, optionally `json`, whitespace, then the
first alternative (`{` closed by the earliest viable `}`), falling back
to the second (`{` or `[` closed by the earliest viable `}` or `]`). -/
def fencedMatchAt (cs : List Char) (i : Nat) : Option String :=
  if strPrefixAt cs i [btick, btick, btick] then
    let p := i + 3
    let p := if strPrefixAt cs p "json".toList then p + 4 else p
    let q := skipReWsIdx cs cs.length p
    match cs[q]? with
    | some c =>
      let alt2close : List Char := [rbrace, ']']
      let alt2 : Option String :=
        if c == lbrace || c == '[' then
          match (List.range cs.length).find? (fun j =>
              decide (q < j) &&
              (match cs[j]? with
               | some d => alt2close.contains d && fenceAfterOk cs j
               | none => false)) with
          | some j => some (strSlice cs q j)
          | none => none
        else none
      if c == lbrace then
        match (List.range cs.length).find? (fun j =>
            decide (q < j) &&
            (match cs[j]? with
             | some d => d == rbrace && fenceAfterOk cs j
             | none => false)) with
        | some j => some (strSlice cs q j)
        | none => alt2
      else alt2
    | none => none
  else none

/-- Model of the fenced-code-block search (stage 2): leftmost start
wins. -/
def fencedSearch (cs : List Char) : Option String :=
  ((List.range cs.length).filterMap (fencedMatchAt cs)).head?

/-- Python exceptions raised by the embedded code. -/
inductive PyExc where
  | jsonDecodeError (msg : String)
  | valueError (msg : String)
  | attributeError (msg : String)

/-- The fixed sentinel action plan
`{"agent_id": None, "action": "default", "parameters": {}}`. -/
def default_action_plan : Json :=
  Json.obj [("agent_id", Json.null), ("action", Json.str "default"),
    ("parameters", Json.obj [])]

/-- The inner `try` suite of `_extract_json_from_response` (the regex
fallback stages, lines 73–102): the first stage whose search matches
hands its captured text to `json.loads`; a parse failure there raises
(`.error`), as does the final `raise ValueError` when no stage
matches.  The captured group always starts and ends with a bracket, so
the source's `.strip()` on it is a no-op and is not modelled. -/
def extract_fallback_stages (text : String) : Except PyExc Json :=
  match fencedSearch text.toList with
  | some cap =>
    match json_loads cap with
    | some j => Except.ok j
    | none => Except.error (PyExc.jsonDecodeError "Expecting value")
  | none =>
    match spanSearch text.toList [lbrace] [rbrace] with
    | some cap =>
      match json_loads cap with
      | some j => Except.ok j
      | none => Except.error (PyExc.jsonDecodeError "Expecting value")
    | none =>
      match spanSearch text.toList ['['] [']'] with
      | some cap =>
        match json_loads cap with
        | some j => Except.ok j
        | none => Except.error (PyExc.jsonDecodeError "Expecting value")
      | none =>
        match spanSearch text.toList [lbrace, '['] [rbrace, ']'] with
        | some cap =>
          match json_loads cap with
          | some j => Except.ok j
          | none => Except.error (PyExc.jsonDecodeError "Expecting value")
        | none =>
          Except.error
            (PyExc.valueError "Could not extract valid JSON from response")

/-- Model of `NaturalLanguageService._extract_json_from_response`.  The result
type records which exceptions can escape: the outer handler catches the
`json.JSONDecodeError` that is the only exception `json.loads` can
raise here, and the inner `except Exception` absorbs every failure of
the fallback stages into the sentinel plan — so no `.error` value is
ever produced. -/
def _extract_json_from_response (text : String) : Except PyExc Json :=
  match json_loads text with
  | some j => Except.ok j
  | none =>
    -- json.JSONDecodeError caught; try the regex fallback stages
    match extract_fallback_stages text with
    | Except.ok j => Except.ok j
    | Except.error _ => Except.ok default_action_plan

/-- Does a fallback stage's search fail to recover JSON: either no
match, or the captured text does not parse? -/
def stageRecovers (o : Option String) : Bool :=
  match o with
  | none => false
  | some cap => (json_loads cap).isSome

/-- No JSON is recoverable from `text` by direct parsing or by any of
the four regex fallback stages. -/
def noRecoverableJson (text : String) : Bool :=
  (json_loads text).isNone &&
  !stageRecovers (fencedSearch text.toList) &&
  !stageRecovers (spanSearch text.toList [lbrace] [rbrace]) &&
  !stageRecovers (spanSearch text.toList ['['] [']']) &&
  !stageRecovers (spanSearch text.toList [lbrace, '['] [rbrace, ']'])

example : json_loads "[1, 2]" = some (Json.arr [Json.num 1, Json.num 2]) := rfl
example : json_loads " null " = some Json.null := rfl
example : json_loads "x" = none := rfl
example :
    _extract_json_from_response "no json here at all" =
      Except.ok default_action_plan := rfl

/-! ## Data model (`models/tool.py`, `models/agent.py`)

Database rows modelled as records; the many-to-many agent↔tool
association is the `tools` list carried on each agent.  Timestamps are
not modelled.  An agent's stored `code` (a Python source string run by
`exec` with the documented context) is modelled as a function from the
execution context to a program in the sandbox's capability language
`AgentProg`: the code may call the provided `execute_tool` capability,
observe each call's outcome, and finally either set the `result`
variable (or leave it unset) or raise.  The ambient objects `exec`
additionally exposes (the raw `db` handle and imported modules) are
outside this model. -/

/-- Generic substring test: does `needle` occur in `hay`?  (Python's
`in` on strings.) -/
def charsLeading : List Char → List Char → Bool
  | [], _ => true
  | _ :: _, [] => false
  | p :: ps, c :: cs => p == c && charsLeading ps cs

def charsContain (needle : List Char) : List Char → Bool
  | [] => needle.isEmpty
  | c :: cs => charsLeading needle (c :: cs) || charsContain needle cs

def strContains (hay needle : String) : Bool :=
  charsContain needle.toList hay.toList

/-- Python `str.lower()` (modelled for ASCII letters). -/
def lowerChar (c : Char) : Char :=
  if 'A' ≤ c && c ≤ 'Z' then Char.ofNat (c.toNat + 32) else c

def strLower (s : String) : String := String.mk (s.toList.map lowerChar)

structure Tool where
  id : Int
  name : String
  description : String
  type : String
  config : Json
  is_active : Bool

/-- The tool-call parameter dict, typed by the keys the adapters read.
A key that is absent from the Python dict is `none`.  (Values of a type
an adapter never accepts for that key — e.g. a non-`int` `limit`, which
`isinstance` filters out — are not modelled.) -/
structure Params where
  per_page : Option Int := none
  sort_by : Option String := none
  sort_direction : Option String := none
  limit : Option Int := none
  language : Option String := none
  is_fork : Option Bool := none
  is_private : Option Bool := none
  repo : Option String := none
  number : Option Int := none
  state : Option String := none
  direction : Option String := none
  author : Option String := none
  is_draft : Option Bool := none
  channel : Option String := none
  message : Option String := none
  jql : Option String := none

/-- A repository object as returned by `GET /user/repos` (the fields
`execute_github_action` reads; `description` and `language` are
nullable). -/
structure RepoRaw where
  name : String
  description : Option String
  html_url : String
  stargazers_count : Int
  forks_count : Int
  language : Option String
  created_at : String
  updated_at : String
  pushed_at : String
  «private» : Bool
  fork : Bool
  size : Int

/-- The repository shape produced by the `get_repos` transformation. -/
structure ProcessedRepo where
  name : String
  description : String
  url : String
  stars : Int
  forks : Int
  language : String
  created_at : String
  updated_at : String
  pushed_at : String
  is_private : Bool
  is_fork : Bool
  size : Int

structure UserRaw where
  login : String
  avatar_url : String
  html_url : String

structure LabelRaw where
  name : String
  color : String

/-- A pull-request object as returned by the GitHub pulls endpoints. -/
structure PullRaw where
  number : Int
  title : String
  body : Option String
  html_url : String
  state : String
  user : UserRaw
  created_at : String
  updated_at : String
  closed_at : Option String
  merged_at : Option String
  draft : Bool
  labels : List LabelRaw

structure ProcessedUser where
  login : String
  avatar_url : String
  profile_url : String

structure ProcessedLabel where
  name : String
  color : String

/-- The pull-request shape produced by `list_pull_requests`. -/
structure ProcessedPull where
  number : Int
  title : String
  url : String
  state : String
  user : ProcessedUser
  created_at : String
  updated_at : String
  closed_at : Option String
  merged_at : Option String
  draft : Bool
  labels : List ProcessedLabel

structure CommentRaw where
  id : Int
  body : String
  user : UserRaw
  created_at : String
  updated_at : String

structure ProcessedComment where
  id : Int
  body : String
  user : ProcessedUser
  created_at : String
  updated_at : String

/-- The merged result of `get_pr_details` (pull request plus its
comment thread). -/
structure PullDetails where
  number : Int
  title : String
  body : Option String
  url : String
  state : String
  user : ProcessedUser
  created_at : String
  updated_at : String
  closed_at : Option String
  merged_at : Option String
  draft : Bool
  labels : List ProcessedLabel
  comments : List ProcessedComment

/-- The value returned by `execute_github_action` (a list for the two
listing actions, a dict otherwise). -/
inductive GithubResult where
  | repos (rs : List ProcessedRepo)
  | repoDetails (j : Json)
  | pulls (ps : List ProcessedPull)
  | prDetails (d : PullDetails)

/-- The count `len(result) if isinstance(result, list) else 1` in the success-log
details. -/
def githubResultCount : GithubResult → Int
  | GithubResult.repos rs => rs.length
  | GithubResult.pulls ps => ps.length
  | GithubResult.repoDetails _ => 1
  | GithubResult.prDetails _ => 1

/-- Value returned to agent code by the `execute_tool` capability. -/
inductive ToolResult where
  | github (r : GithubResult)
  | slack (j : Json)
  | jira (j : Json)

/-- The `details` JSON column of a `ToolLog` row, typed by the shapes
the services actually write. -/
inductive LogDetails where
  /-- GitHub success: `{"params": …, "result_count": …}`. -/
  | withCount (params : Params) (result_count : Int)
  /-- Slack/Jira success: `{"params": …, "result": …}`. -/
  | withResult (params : Params) (result : Json)
  /-- Any adapter error: `{"params": …}`. -/
  | paramsOnly (params : Params)
  /-- The query-resolver entry:
  `{"query": …, "action_plan": …, "raw_result": …, "llm": …}`. -/
  | nlQuery (query : String) (action_plan : Json) (raw_result : Json)
      (llm : Json)

structure ToolLog where
  id : Int
  tool_id : Int
  action : String
  status : String
  details : LogDetails
  error_message : Option String

/-- The inputs `exec` exposes to stored agent code
(`agent_id`/`agent_name`/`action`/`parameters`/`tools`/`config`). -/
structure ExecCtx where
  agent_id : Json
  agent_name : String
  action : Json
  parameters : Json
  tools : List Tool
  config : Json

/-- The sandboxed program run for an agent: it may invoke tools through
the `execute_tool` capability (observing each outcome), and ends by
either setting the `result` variable (`done (some v)`), leaving it
unset (`done none`), or raising (`fail`). -/
inductive AgentProg where
  | done (result : Option Json)
  | fail (msg : String)
  | invokeTool (tool_id : Int) (tool_action : String) (tool_params : Params)
      (k : Except String ToolResult → AgentProg)

def AgentCode := ExecCtx → AgentProg

structure Agent where
  id : Int
  name : String
  description : String
  code : AgentCode
  config : Json
  is_active : Bool
  tools : List Tool

structure DB where
  agents : List Agent
  tools : List Tool
  logs : List ToolLog
  nextLogId : Int

/-- One outbound HTTP request performed by an adapter. -/
inductive NetCall where
  | get (url : String)
  | post (url : String)

/-- Mutable state threaded through the embedded services: the database
plus the trace of outbound network calls performed so far. -/
structure World where
  db : DB
  net : List NetCall

/-- Query parameters sent to `GET /user/repos`. -/
structure RepoQuery where
  per_page : Int
  sort : String
  direction : String

/-- Query parameters sent to `GET /repos/{repo}/pulls`. -/
structure PullsQuery where
  state : String
  sort : String
  direction : String
  per_page : Int

/-- The environment: credential lookup (`os.getenv`) and the responses
the external services would give to each request.  `.error e` models
`requests` raising (transport failure or `raise_for_status`), with `e`
the exception text. -/
structure Env where
  githubToken : Option String
  slackToken : Option String
  jiraToken : Option String
  userRepos : RepoQuery → Except String (List RepoRaw)
  userLogin : Except String (Option String)
  repoDetails : String → Except String Json
  repoPulls : String → PullsQuery → Except String (List PullRaw)
  pullDetails : String → Int → Except String PullRaw
  issueComments : String → Int → Except String (List CommentRaw)
  slackPost : String → String → Except String Json
  jiraSearch : String → Except String Json
  llm : Except String (String × Json)
  activeModel : String × String

/-! ## `ToolService` -/

def get_tool (db : DB) (tool_id : Int) : Option Tool :=
  db.tools.find? (fun t => t.id == tool_id)

/-- Model of `ToolService.log_tool_action`: append one `ToolLog` row (the id is
the autoincrement counter). -/
def log_tool_action (db : DB) (tool_id : Int) (action status : String)
    (details : LogDetails) (error_message : Option String) : DB × ToolLog :=
  let log : ToolLog :=
    { id := db.nextLogId, tool_id := tool_id, action := action,
      status := status, details := details, error_message := error_message }
  ({ db with logs := db.logs ++ [log], nextLogId := db.nextLogId + 1 }, log)

/-- Model of `ToolService.delete_log`: delete a log row by id. -/
def delete_log (db : DB) (log_id : Int) : DB × Option ToolLog :=
  match db.logs.find? (fun l => l.id == log_id) with
  | none => (db, none)
  | some l =>
    ({ db with logs := db.logs.filter (fun l' => !(l'.id == log_id)) }, some l)

/-- Model of `ToolService.delete_tool`: delete a tool and, first, every log row
associated with it. -/
def delete_tool (db : DB) (tool_id : Int) : DB × Option Tool :=
  match get_tool db tool_id with
  | none => (db, none)
  | some t =>
    ({ db with
        logs := db.logs.filter (fun l => !(l.tool_id == tool_id)),
        tools := db.tools.filter (fun t' => !(t'.id == tool_id)) }, some t)

/-- The `get_repos` data pipeline: transform each upstream repository,
apply the optional client-side filters, then the final limit. -/
def transformRepo (r : RepoRaw) : ProcessedRepo :=
  { name := r.name, description := r.description.getD "",
    url := r.html_url, stars := r.stargazers_count,
    forks := r.forks_count, language := (r.language.getD ""),
    created_at := r.created_at, updated_at := r.updated_at,
    pushed_at := r.pushed_at, is_private := r.«private»,
    is_fork := r.fork, size := r.size }

def processRepos (params : Params) (repos : List RepoRaw) :
    List ProcessedRepo :=
  let processed := repos.map transformRepo
  -- `if params.get("language"):` — present and non-empty
  let processed :=
    match params.language with
    | some lang =>
      if lang == "" then processed
      else processed.filter (fun r =>
        r.language != "" && strLower r.language == strLower lang)
    | none => processed
  -- `if "is_fork" in params:` — key presence
  let processed :=
    match params.is_fork with
    | some ff => processed.filter (fun r => r.is_fork == ff)
    | none => processed
  let processed :=
    match params.is_private with
    | some pf => processed.filter (fun r => r.is_private == pf)
    | none => processed
  -- `if limit and isinstance(limit, int) and limit > 0:`
  match params.limit with
  | some l => if l > 0 then processed.take l.toNat else processed
  | none => processed

def transformPull (pr : PullRaw) : ProcessedPull :=
  { number := pr.number, title := pr.title, url := pr.html_url,
    state := pr.state,
    user := { login := pr.user.login, avatar_url := pr.user.avatar_url,
              profile_url := pr.user.html_url },
    created_at := pr.created_at, updated_at := pr.updated_at,
    closed_at := pr.closed_at, merged_at := pr.merged_at,
    draft := pr.draft,
    labels := pr.labels.map (fun l => { name := l.name, color := l.color }) }

def processPulls (params : Params) (prs : List PullRaw) :
    List ProcessedPull :=
  let processed := prs.map transformPull
  let processed :=
    match params.author with
    | some author =>
      if author == "" then processed
      else processed.filter (fun pr =>
        strLower pr.user.login == strLower author)
    | none => processed
  let processed :=
    match params.is_draft with
    | some df => processed.filter (fun pr => pr.draft == df)
    | none => processed
  match params.limit with
  | some l => if l > 0 then processed.take l.toNat else processed
  | none => processed

/-- The `repo` formatting shared by the three repo-scoped actions: an
unqualified name is prefixed with the authenticated user's login
(`GET /user`); a missing login raises. -/
def resolveRepo (env : Env) (repo : String) :
    List NetCall × Except String String :=
  if strContains repo "/" then ([], Except.ok repo)
  else
    let calls := [NetCall.get "https://api.github.com/user"]
    match env.userLogin with
    | Except.error e => (calls, Except.error e)
    | Except.ok none =>
      (calls, Except.error
        "Repository must be in the format \x27owner/repo\x27 or user authentication failed")
    | Except.ok (some owner) => (calls, Except.ok (owner ++ "/" ++ repo))

def buildPullDetails (pr : PullRaw) (comments : List CommentRaw) :
    PullDetails :=
  { number := pr.number, title := pr.title, body := pr.body,
    url := pr.html_url, state := pr.state,
    user := { login := pr.user.login, avatar_url := pr.user.avatar_url,
              profile_url := pr.user.html_url },
    created_at := pr.created_at, updated_at := pr.updated_at,
    closed_at := pr.closed_at, merged_at := pr.merged_at,
    draft := pr.draft,
    labels := pr.labels.map (fun l => { name := l.name, color := l.color }),
    comments := comments.map (fun c =>
      { id := c.id, body := c.body,
        user := { login := c.user.login, avatar_url := c.user.avatar_url,
                  profile_url := c.user.html_url },
        created_at := c.created_at, updated_at := c.updated_at }) }

/-- The `try` suite of `execute_github_action`: the per-action outbound
calls and result processing.  Returns the network calls performed (in
order, including those before a raise) and the result or exception. -/
def github_try_body (env : Env) (action : String) (params : Params) :
    List NetCall × Except String GithubResult :=
  if action == "get_repos" then
    let q : RepoQuery :=
      { per_page := params.per_page.getD 10,
        sort := params.sort_by.getD "updated",
        direction := params.sort_direction.getD "desc" }
    let calls := [NetCall.get "https://api.github.com/user/repos"]
    match env.userRepos q with
    | Except.error e => (calls, Except.error e)
    | Except.ok repos =>
      (calls, Except.ok (GithubResult.repos (processRepos params repos)))
  else if action == "get_repo_details" then
    let repoName := params.repo.getD ""
    if repoName == "" then ([], Except.error "Repository name required")
    else
      match resolveRepo env repoName with
      | (calls1, Except.error e) => (calls1, Except.error e)
      | (calls1, Except.ok full) =>
        let calls := calls1 ++ [NetCall.get ("https://api.github.com/repos/" ++ full)]
        match env.repoDetails full with
        | Except.error e => (calls, Except.error e)
        | Except.ok j => (calls, Except.ok (GithubResult.repoDetails j))
  else if action == "list_pull_requests" then
    let repo := params.repo.getD ""
    if repo == "" then ([], Except.error "Repository name required")
    else
      match resolveRepo env repo with
      | (calls1, Except.error e) => (calls1, Except.error e)
      | (calls1, Except.ok full) =>
        let q : PullsQuery :=
          { state := params.state.getD "open",
            sort := params.sort_by.getD "created",
            direction := params.direction.getD "desc",
            per_page := params.per_page.getD 10 }
        let calls := calls1 ++
          [NetCall.get ("https://api.github.com/repos/" ++ full ++ "/pulls")]
        match env.repoPulls full q with
        | Except.error e => (calls, Except.error e)
        | Except.ok prs =>
          (calls, Except.ok (GithubResult.pulls (processPulls params prs)))
  else if action == "get_pr_details" then
    let repo := params.repo.getD ""
    -- `if not repo or not pr_number:` — absent or falsy (0) values
    let numMissing :=
      match params.number with
      | some n => n == 0
      | none => true
    if repo == "" || numMissing then
      ([], Except.error "Repository name and PR number required")
    else
      let number := params.number.getD 0
      match resolveRepo env repo with
      | (calls1, Except.error e) => (calls1, Except.error e)
      | (calls1, Except.ok full) =>
        let calls2 := calls1 ++
          [NetCall.get ("https://api.github.com/repos/" ++ full ++ "/pulls/" ++
            toString number)]
        match env.pullDetails full number with
        | Except.error e => (calls2, Except.error e)
        | Except.ok pr =>
          let calls3 := calls2 ++
            [NetCall.get ("https://api.github.com/repos/" ++ full ++ "/issues/" ++
              toString number ++ "/comments")]
          match env.issueComments full number with
          | Except.error e => (calls3, Except.error e)
          | Except.ok comments =>
            (calls3, Except.ok (GithubResult.prDetails
              (buildPullDetails pr comments)))
  else ([], Except.error ("Unsupported GitHub action: " ++ action))

/-- Model of `ToolService.execute_github_action`.  The tool/type check and the
token check happen before the `try` block — a failure there raises with
no log written.  Inside the `try`, success and failure each write
exactly one log row before the function returns or re-raises. -/
def execute_github_action (env : Env) (w : World) (tool_id : Int)
    (action : String) (params : Params) :
    World × Except String GithubResult :=
  match get_tool w.db tool_id with
  | none => (w, Except.error "Invalid tool or tool type")
  | some t =>
    if t.type != "github" then (w, Except.error "Invalid tool or tool type")
    else if (env.githubToken.getD "") == "" then
      (w, Except.error "GitHub token not configured")
    else
      match github_try_body env action params with
      | (calls, Except.ok r) =>
        let w1 : World := { w with net := w.net ++ calls }
        let db2 := (log_tool_action w1.db tool_id action "success"
          (LogDetails.withCount params (githubResultCount r)) none).1
        ({ w1 with db := db2 }, Except.ok r)
      | (calls, Except.error e) =>
        let w1 : World := { w with net := w.net ++ calls }
        let db2 := (log_tool_action w1.db tool_id action "error"
          (LogDetails.paramsOnly params) (some e)).1
        ({ w1 with db := db2 }, Except.error e)

/-- The `try` suite of `execute_slack_action`. -/
def slack_try_body (env : Env) (action : String) (params : Params) :
    List NetCall × Except String Json :=
  if action == "send_message" then
    let channel := params.channel.getD ""
    let message := params.message.getD ""
    if channel == "" || message == "" then
      ([], Except.error "Channel and message required")
    else
      let calls := [NetCall.post "https://slack.com/api/chat.postMessage"]
      match env.slackPost channel message with
      | Except.error e => (calls, Except.error e)
      | Except.ok j => (calls, Except.ok j)
  else ([], Except.error ("Unsupported Slack action: " ++ action))

/-- Model of `ToolService.execute_slack_action`. -/
def execute_slack_action (env : Env) (w : World) (tool_id : Int)
    (action : String) (params : Params) : World × Except String Json :=
  match get_tool w.db tool_id with
  | none => (w, Except.error "Invalid tool or tool type")
  | some t =>
    if t.type != "slack" then (w, Except.error "Invalid tool or tool type")
    else if (env.slackToken.getD "") == "" then
      (w, Except.error "Slack token not configured")
    else
      match slack_try_body env action params with
      | (calls, Except.ok r) =>
        let w1 : World := { w with net := w.net ++ calls }
        let db2 := (log_tool_action w1.db tool_id action "success"
          (LogDetails.withResult params r) none).1
        ({ w1 with db := db2 }, Except.ok r)
      | (calls, Except.error e) =>
        let w1 : World := { w with net := w.net ++ calls }
        let db2 := (log_tool_action w1.db tool_id action "error"
          (LogDetails.paramsOnly params) (some e)).1
        ({ w1 with db := db2 }, Except.error e)

/-- The `try` suite of `execute_jira_action`. -/
def jira_try_body (env : Env) (action : String) (params : Params) :
    List NetCall × Except String Json :=
  if action == "get_issues" then
    let jql := params.jql.getD ""
    let calls :=
      [NetCall.get "https://your-domain.atlassian.net/rest/api/2/search"]
    match env.jiraSearch jql with
    | Except.error e => (calls, Except.error e)
    | Except.ok j => (calls, Except.ok j)
  else ([], Except.error ("Unsupported Jira action: " ++ action))

/-- Model of `ToolService.execute_jira_action`. -/
def execute_jira_action (env : Env) (w : World) (tool_id : Int)
    (action : String) (params : Params) : World × Except String Json :=
  match get_tool w.db tool_id with
  | none => (w, Except.error "Invalid tool or tool type")
  | some t =>
    if t.type != "jira" then (w, Except.error "Invalid tool or tool type")
    else if (env.jiraToken.getD "") == "" then
      (w, Except.error "Jira token not configured")
    else
      match jira_try_body env action params with
      | (calls, Except.ok r) =>
        let w1 : World := { w with net := w.net ++ calls }
        let db2 := (log_tool_action w1.db tool_id action "success"
          (LogDetails.withResult params r) none).1
        ({ w1 with db := db2 }, Except.ok r)
      | (calls, Except.error e) =>
        let w1 : World := { w with net := w.net ++ calls }
        let db2 := (log_tool_action w1.db tool_id action "error"
          (LogDetails.paramsOnly params) (some e)).1
        ({ w1 with db := db2 }, Except.error e)

/-! ## `AgentService` -/

/-- Model of `d.get(k, default)`: Python returns the stored value (even `None`)
when the key is present. -/
def dictGetD (j : Json) (k : String) (d : Json) : Json :=
  match j with
  | Json.obj kvs =>
    match kvs.find? (fun kv => kv.1 == k) with
    | some kv => kv.2
    | none => d
  | _ => d

/-- The SQL filter `Agent.id == value` for the id value taken from an
action plan: only an integer value can match a row id. -/
def jsonIdEq (v : Json) (i : Int) : Bool :=
  match v with
  | Json.num n => n == i
  | _ => false

/-- Rendering of a decoded JSON value inside a Python f-string (used in
exception messages; container reprs are abbreviated, no claim inspects
them). -/
def jsonPyStr : Json → String
  | Json.null => "None"
  | Json.bool true => "True"
  | Json.bool false => "False"
  | Json.num n => toString n
  | Json.fnum lit => lit
  | Json.str s => s
  | Json.arr _ => "[…]"
  | Json.obj _ => "\x7b…\x7d"

/-- Model of `AgentService.get_agent`: lookup by id only — note there is no
filter on `is_active`. -/
def get_agent (db : DB) (agent_id : Json) : Option Agent :=
  db.agents.find? (fun a => jsonIdEq agent_id a.id)

/-- The result dict of `AgentService.execute_agent`. -/
structure ExecutionResult where
  agent_id : Json
  agent_name : String
  action : Json
  status : String
  result : Json
  error : Option String

def ExecutionResult.toJson (r : ExecutionResult) : Json :=
  match r.error with
  | none =>
    Json.obj [("agent_id", r.agent_id), ("agent_name", Json.str r.agent_name),
      ("action", r.action), ("status", Json.str r.status),
      ("result", r.result)]
  | some e =>
    Json.obj [("agent_id", r.agent_id), ("agent_name", Json.str r.agent_name),
      ("action", r.action), ("status", Json.str r.status),
      ("error", Json.str e), ("result", r.result)]

/-- The `execute_tool` capability handed to agent code: reject a tool id
outside the agent's own tool list, otherwise dispatch to the adapter
for the tool's type. -/
def execute_tool (env : Env) (w : World) (ag : Agent) (tool_id : Int)
    (tool_action : String) (tool_params : Params) :
    World × Except String ToolResult :=
  match ag.tools.find? (fun t => t.id == tool_id) with
  | none =>
    (w, Except.error ("Tool " ++ toString tool_id ++
      " not found or not associated with this agent"))
  | some tool =>
    if tool.type == "github" then
      let p := execute_github_action env w tool_id tool_action tool_params
      (p.1, p.2.map ToolResult.github)
    else if tool.type == "slack" then
      let p := execute_slack_action env w tool_id tool_action tool_params
      (p.1, p.2.map ToolResult.slack)
    else if tool.type == "jira" then
      let p := execute_jira_action env w tool_id tool_action tool_params
      (p.1, p.2.map ToolResult.jira)
    else (w, Except.error ("Unsupported tool type: " ++ tool.type))

/-- Run the agent's code: each `execute_tool` call is interpreted
against the world, its outcome fed back to the code's continuation. -/
def runAgentProg (env : Env) (ag : Agent) :
    AgentProg → World → World × Except String (Option Json)
  | AgentProg.done r, w => (w, Except.ok r)
  | AgentProg.fail e, w => (w, Except.error e)
  | AgentProg.invokeTool tid ta tp k, w =>
    let p := execute_tool env w ag tid ta tp
    runAgentProg env ag (k p.2) p.1

/-- Model of `AgentService.execute_agent`.  An unknown agent id raises
`ValueError` before any code runs; otherwise the stored code is
executed (there is no `is_active` check), any exception it raises is
caught and converted into an error-status result dict, and an unset
`result` variable is replaced by the default message. -/
def execute_agent (env : Env) (w : World) (agent_id : Json)
    (action_data : Json) : World × Except String ExecutionResult :=
  match get_agent w.db agent_id with
  | none =>
    (w, Except.error ("Agent " ++ jsonPyStr agent_id ++ " not found"))
  | some ag =>
    match runAgentProg env ag (ag.code
        { agent_id := agent_id, agent_name := ag.name,
          action := dictGetD action_data "action" (Json.str ""),
          parameters := dictGetD action_data "parameters" (Json.obj []),
          tools := ag.tools, config := ag.config }) w with
    | (w1, Except.ok r) =>
      let result := r.getD (Json.obj [("message",
        Json.str ("Agent \x27" ++ ag.name ++
          "\x27 executed but didn\x27t produce a result"))])
      (w1, Except.ok
        { agent_id := agent_id, agent_name := ag.name,
          action := dictGetD action_data "action" (Json.str ""),
          status := "success", result := result, error := none })
    | (w1, Except.error e) =>
      (w1, Except.ok
        { agent_id := agent_id, agent_name := ag.name,
          action := dictGetD action_data "action" (Json.str ""),
          status := "error",
          result := Json.str ("Failed to execute agent code: " ++ e),
          error := some e })

/-! ## `NaturalLanguageService.process_query` -/

/-- The GitHub action alias table (`nl_service.py` lines 367–381). -/
def github_action_mapping : List (String × String) :=
  [("list_repositories", "get_repositories"),
   ("get_repos", "get_repositories"),
   ("list_repos", "get_repositories"),
   ("show_repositories", "get_repositories"),
   ("show_repos", "get_repositories"),
   ("my_repositories", "get_repositories"),
   ("my_repos", "get_repositories"),
   ("list_prs", "list_pull_requests"),
   ("get_prs", "list_pull_requests"),
   ("show_prs", "list_pull_requests"),
   ("list_issues", "list_issues"),
   ("get_issues", "list_issues"),
   ("show_issues", "list_issues")]

/-- The Slack action alias table (`nl_service.py` lines 384–392). -/
def slack_action_mapping : List (String × String) :=
  [("send_message", "send_message"),
   ("post_message", "send_message"),
   ("send", "send_message"),
   ("post", "send_message"),
   ("message", "send_message"),
   ("slack_message", "send_message"),
   ("dm", "send_message")]

def lookupStr : List (String × String) → String → Option String
  | [], _ => none
  | kv :: rest, x => if x == kv.1 then some kv.2 else lookupStr rest x

/-- The step `action = mapping[action] if action in mapping else action`: the
action-name normalization step applied per domain alias table. -/
def normalize_action (mapping : List (String × String))
    (action : String) : String :=
  match lookupStr mapping action with
  | some v => v
  | none => action

/-- Python `==` between a decoded plan value and the optional agent id
(`None` when no agent of that domain exists): `None == None` is true,
an int matches an equal int (and `True`/`False` equal `1`/`0`). -/
def pyEqJsonOptInt (v : Json) : Option Int → Bool
  | none =>
    match v with
    | Json.null => true
    | _ => false
  | some i =>
    match v with
    | Json.num n => n == i
    | Json.bool b => (if b then (1 : Int) else 0) == i
    | _ => false

/-- One domain's mapping step (lines 517–524): when the plan's
`agent_id` equals the domain's agent id and its `action` is a key of
the alias table, rewrite the action in place. -/
def apply_action_mapping (agentIdOpt : Option Int)
    (mapping : List (String × String)) (plan : Json) : Json :=
  if pyEqJsonOptInt (dictGet plan "agent_id") agentIdOpt then
    match dictGet plan "action" with
    | Json.str a =>
      match lookupStr mapping a with
      | some v => dictSet plan "action" (Json.str v)
      | none => plan
    | _ => plan
  else plan

def pyExcMsg : PyExc → String
  | PyExc.jsonDecodeError m => m
  | PyExc.valueError m => m
  | PyExc.attributeError m => m

/-- Extraction plus the two mapping steps (the tail of the inner `try`
of `process_query`, lines 513–524).  A non-dict extraction result makes
the first `action_plan.get` raise `AttributeError`, which the inner
handler (line 526) turns into the "Error calling language model"
response. -/
def plan_after_mapping (githubId slackId : Option Int) (raw : String) :
    Except PyExc Json :=
  match _extract_json_from_response raw with
  | Except.error e => Except.error e
  | Except.ok plan =>
    match plan with
    | Json.obj kvs =>
      Except.ok (apply_action_mapping slackId slack_action_mapping
        (apply_action_mapping githubId github_action_mapping (Json.obj kvs)))
    | _ =>
      Except.error (PyExc.attributeError
        "object has no attribute \x27get\x27")

/-- Choice of the tool id to attach the `nl_query` log to (lines
558–567): an explicit truthy integer `tool_id` in the plan, else the
agent's first tool, else the first tool in the registry (default
pagination), else none. -/
def selectLogToolId (plan : Json) (ag : Agent) (db : DB) : Option Int :=
  let fromPlan :=
    match dictGet plan "tool_id" with
    | Json.num n => if n != 0 then some n else none
    | _ => none
  match fromPlan with
  | some tid => some tid
  | none =>
    match ag.tools with
    | t :: _ => some t.id
    | [] =>
      match db.tools.take 10 with
      | t :: _ => some t.id
      | [] => none

/-- The outward response of `process_query`.  The `human_readable`
field (presentation-only formatting of the result) is not modelled. -/
structure QueryResponse where
  status : String
  message : Option String := none
  result : Option ExecutionResult := none
  action_plan : Option Json := none
  model_info : String × String := ("unknown", "unknown")
  token_usage : Option Json := none

/-- The lookup `github_agent = next((a for a in agents if "github" in a.name.lower()), None)`
(and its id), over the page of agents `get_agents` returns. -/
def github_agent_id_of (agents : List Agent) : Option Int :=
  (agents.find? (fun a => strContains (strLower a.name) "github")).map Agent.id

def slack_agent_id_of (agents : List Agent) : Option Int :=
  (agents.find? (fun a => strContains (strLower a.name) "slack")).map Agent.id

/-- Model of `NaturalLanguageService.process_query`: resolve the query through
the LLM, extract and map the action plan, execute the resolved agent,
write the `nl_query` audit entry, and build the outward response.  The
prompt texts sent to the LLM (which depend on keyword checks against
the query) do not influence the modelled control flow and are absorbed
into the `llm` oracle. -/
def process_query (env : Env) (w : World) (query : String) :
    World × QueryResponse :=
  let provider := env.activeModel.1
  let model_name := env.activeModel.2
  -- agents := get_agents(db) (default pagination: first 10); the GitHub and
  -- Slack agents are located by name substring
  match env.llm with
  | Except.error e =>
    (w, { status := "error",
          message := some ("Error calling language model: " ++ e),
          model_info := (provider, model_name) })
  | Except.ok (content, usage) =>
    match plan_after_mapping (github_agent_id_of (w.db.agents.take 10))
        (slack_agent_id_of (w.db.agents.take 10)) content with
    | Except.error exc =>
      (w, { status := "error",
            message := some ("Error calling language model: " ++ pyExcMsg exc),
            model_info := (provider, model_name) })
    | Except.ok plan =>
      if jsonTruthy (dictGet plan "agent_id") then
        match get_agent w.db (dictGet plan "agent_id") with
        | none =>
          -- the ValueError of line 541 reaches the top-level handler
          (w, { status := "error",
                message := some ("Agent " ++ jsonPyStr (dictGet plan "agent_id")
                  ++ " not found"),
                model_info := (provider, model_name) })
        | some agent =>
          match execute_agent env w (dictGet plan "agent_id")
              (Json.obj [("action", dictGetD plan "action" (Json.str "default")),
                ("parameters", dictGetD plan "parameters" (Json.obj []))]) with
          | (w1, Except.error e) =>
            -- unreachable (the agent was just found); a raise here would
            -- reach the top-level handler
            (w1, { status := "error", message := some e,
                   model_info := (provider, model_name) })
          | (w1, Except.ok result) =>
            let w2 :=
              match selectLogToolId plan agent w1.db with
              | some tid =>
                { w1 with db := (log_tool_action w1.db tid "nl_query"
                    "success"
                    (LogDetails.nlQuery query plan result.toJson usage)
                    none).1 }
              | none => w1
            (w2, { status := "success", result := some result,
                   action_plan := some plan,
                   model_info := (provider, model_name),
                   token_usage := some usage })
      else
        (w, { status := "error",
              message := some "No suitable agent found for the query",
              model_info := (provider, model_name),
              token_usage := some usage })

/-! ## Helper definitions and lemmas -/

def exceptOk {ε α : Type} : Except ε α → Bool
  | Except.ok _ => true
  | Except.error _ => false

/-- Evolution of the database under the execution pipeline: agents and
tools untouched, logs only appended to. -/
def dbStep (db db' : DB) : Prop :=
  db'.agents = db.agents ∧ db'.tools = db.tools ∧
    ∃ new, db'.logs = db.logs ++ new

theorem dbStep_refl (db : DB) : dbStep db db :=
  ⟨rfl, rfl, [], (List.append_nil _).symm⟩

theorem dbStep_trans {db1 db2 db3 : DB} (h1 : dbStep db1 db2)
    (h2 : dbStep db2 db3) : dbStep db1 db3 := by
  obtain ⟨ha1, ht1, n1, hl1⟩ := h1
  obtain ⟨ha2, ht2, n2, hl2⟩ := h2
  exact ⟨ha2.trans ha1, ht2.trans ht1, n1 ++ n2,
    by rw [hl2, hl1, List.append_assoc]⟩

theorem log_tool_action_dbStep (db : DB) (tid : Int) (a st : String)
    (d : LogDetails) (em : Option String) :
    dbStep db (log_tool_action db tid a st d em).1 :=
  ⟨rfl, rfl, [(log_tool_action db tid a st d em).2], rfl⟩

theorem execute_github_action_dbStep (env : Env) (w : World) (tid : Int)
    (a : String) (p : Params) :
    dbStep w.db ((execute_github_action env w tid a p).1).db := by
  unfold execute_github_action
  repeat' split
  all_goals first
    | exact dbStep_refl _
    | exact log_tool_action_dbStep _ _ _ _ _ _

theorem execute_slack_action_dbStep (env : Env) (w : World) (tid : Int)
    (a : String) (p : Params) :
    dbStep w.db ((execute_slack_action env w tid a p).1).db := by
  unfold execute_slack_action
  repeat' split
  all_goals first
    | exact dbStep_refl _
    | exact log_tool_action_dbStep _ _ _ _ _ _

theorem execute_jira_action_dbStep (env : Env) (w : World) (tid : Int)
    (a : String) (p : Params) :
    dbStep w.db ((execute_jira_action env w tid a p).1).db := by
  unfold execute_jira_action
  repeat' split
  all_goals first
    | exact dbStep_refl _
    | exact log_tool_action_dbStep _ _ _ _ _ _

theorem execute_tool_dbStep (env : Env) (w : World) (ag : Agent)
    (tid : Int) (ta : String) (tp : Params) :
    dbStep w.db ((execute_tool env w ag tid ta tp).1).db := by
  unfold execute_tool
  repeat' split
  all_goals first
    | exact dbStep_refl _
    | exact execute_github_action_dbStep env w tid ta tp
    | exact execute_slack_action_dbStep env w tid ta tp
    | exact execute_jira_action_dbStep env w tid ta tp

theorem runAgentProg_dbStep (env : Env) (ag : Agent) (prog : AgentProg)
    (w : World) : dbStep w.db ((runAgentProg env ag prog w).1).db := by
  induction prog generalizing w with
  | done r => exact dbStep_refl _
  | fail e => exact dbStep_refl _
  | invokeTool tid ta tp k ih =>
    exact dbStep_trans (execute_tool_dbStep env w ag tid ta tp) (ih _ _)

/-- Transport of `runAgentProg_dbStep` along a destructured call. -/
theorem runAgentProg_pair_dbStep (env : Env) (ag : Agent)
    (prog : AgentProg) (w w1 : World) (r : Except String (Option Json))
    (h : runAgentProg env ag prog w = (w1, r)) : dbStep w.db w1.db := by
  have hs := runAgentProg_dbStep env ag prog w
  rw [h] at hs
  exact hs

theorem execute_agent_dbStep (env : Env) (w : World) (idv : Json)
    (ad : Json) : dbStep w.db ((execute_agent env w idv ad).1).db := by
  unfold execute_agent
  split
  · exact dbStep_refl _
  · split
    · rename_i w1 r heq
      exact runAgentProg_pair_dbStep env _ _ w _ _ heq
    · rename_i w1 e heq
      exact runAgentProg_pair_dbStep env _ _ w _ _ heq

/-- Transport of `execute_agent_dbStep` along a destructured call. -/
theorem execute_agent_pair_dbStep (env : Env) (w : World) (idv ad : Json)
    (w1 : World) (r : Except String ExecutionResult)
    (h : execute_agent env w idv ad = (w1, r)) : dbStep w.db w1.db := by
  have hs := execute_agent_dbStep env w idv ad
  rw [h] at hs
  exact hs

/-- When the agent exists, `execute_agent` always returns a result dict
(the sandbox catches every failure of the code). -/
theorem execute_agent_found_ok (env : Env) (w : World) (idv : Json)
    (ad : Json) (ag : Agent) (h : get_agent w.db idv = some ag) :
    ∃ r, (execute_agent env w idv ad).2 = Except.ok r := by
  unfold execute_agent
  split
  · rename_i heq
    rw [h] at heq
    exact Option.noConfusion heq
  · split
    · exact ⟨_, rfl⟩
    · exact ⟨_, rfl⟩

theorem process_query_dbStep (env : Env) (w : World) (query : String) :
    dbStep w.db ((process_query env w query).1).db := by
  unfold process_query
  split
  · exact dbStep_refl _
  · split
    · exact dbStep_refl _
    · split
      · split
        · exact dbStep_refl _
        · split
          · rename_i w1 e heq
            exact execute_agent_pair_dbStep env w _ _ _ _ heq
          · rename_i w1 result heq
            split
            · exact dbStep_trans (execute_agent_pair_dbStep env w _ _ _ _ heq)
                (log_tool_action_dbStep _ _ _ _ _ _)
            · exact execute_agent_pair_dbStep env w _ _ _ _ heq
      · exact dbStep_refl _

theorem lookupStr_mem (m : List (String × String)) (x v : String)
    (h : lookupStr m x = some v) : (x, v) ∈ m := by
  induction m with
  | nil => simp [lookupStr] at h
  | cons kv rest ih =>
    rw [lookupStr] at h
    by_cases hx : x == kv.1
    · rw [if_pos hx] at h
      have hx' : x = kv.1 := by simpa using hx
      have hv : v = kv.2 := by injection h with h'; exact h'.symm
      subst hx' hv
      exact List.mem_cons_self _ _
    · rw [if_neg hx] at h
      exact List.mem_cons_of_mem _ (ih h)

/-- Idempotence of `normalize_action` holds whenever every value of the
alias table is itself a fixed point. -/
theorem normalize_action_idem_of_closed (m : List (String × String))
    (hall : ∀ kv ∈ m, normalize_action m kv.2 = kv.2) (x : String) :
    normalize_action m (normalize_action m x) = normalize_action m x := by
  cases h : lookupStr m x with
  | none =>
    have hx : normalize_action m x = x := by unfold normalize_action; rw [h]
    rw [hx]
    exact hx
  | some v =>
    have hx : normalize_action m x = v := by unfold normalize_action; rw [h]
    rw [hx]
    exact hall (x, v) (lookupStr_mem m x v h)

/-! ## Concrete fixtures shared by witnesses and counterexamples -/

/-- A baseline environment: no credentials configured, every outbound
call fails, the language model is unavailable. -/
def envBase : Env :=
  { githubToken := none, slackToken := none, jiraToken := none,
    userRepos := fun _ => Except.error "network unreachable",
    userLogin := Except.error "network unreachable",
    repoDetails := fun _ => Except.error "network unreachable",
    repoPulls := fun _ _ => Except.error "network unreachable",
    pullDetails := fun _ _ => Except.error "network unreachable",
    issueComments := fun _ _ => Except.error "network unreachable",
    slackPost := fun _ _ => Except.error "network unreachable",
    jiraSearch := fun _ => Except.error "network unreachable",
    llm := Except.error "no model", activeModel := ("groq", "llama-3.3-70b-versatile") }

/-! ## Claims -/

/-- C3: for every input string the extractor returns a value and never
raises — every exception path of `_extract_json_from_response` is
handled, so the `Except`-typed model always yields `.ok` — and when no
fallback stage can recover JSON from the input, the result is exactly
the sentinel `{"agent_id": null, "action": "default", "parameters": {}}`. -/
theorem claim_C3 (text : String) :
    (∃ j, _extract_json_from_response text = Except.ok j) ∧
    (noRecoverableJson text = true →
      _extract_json_from_response text = Except.ok default_action_plan) := by
  constructor
  · unfold _extract_json_from_response
    cases json_loads text with
    | some j => exact ⟨j, rfl⟩
    | none =>
      cases extract_fallback_stages text with
      | ok j => exact ⟨j, rfl⟩
      | error e => exact ⟨default_action_plan, rfl⟩
  · intro h
    unfold noRecoverableJson at h
    simp only [Bool.and_eq_true, Bool.not_eq_true'] at h
    obtain ⟨⟨⟨⟨h1, h2⟩, h3⟩, h4⟩, h5⟩ := h
    have h1' : json_loads text = none := by
      cases hx : json_loads text with
      | none => rfl
      | some j => rw [hx] at h1; simp [Option.isNone] at h1
    unfold _extract_json_from_response extract_fallback_stages
    rw [h1']
    cases hf : fencedSearch text.toList with
    | some cap =>
      rw [hf] at h2
      simp only [stageRecovers] at h2
      have hc : json_loads cap = none := by
        cases hx : json_loads cap with
        | none => rfl
        | some j => rw [hx] at h2; simp at h2
      simp only [hc]
    | none =>
      cases hcu : spanSearch text.toList [lbrace] [rbrace] with
      | some cap =>
        rw [hcu] at h3
        simp only [stageRecovers] at h3
        have hc : json_loads cap = none := by
          cases hx : json_loads cap with
          | none => rfl
          | some j => rw [hx] at h3; simp at h3
        simp only [hc]
      | none =>
        cases hsq : spanSearch text.toList ['['] [']'] with
        | some cap =>
          rw [hsq] at h4
          simp only [stageRecovers] at h4
          have hc : json_loads cap = none := by
            cases hx : json_loads cap with
            | none => rfl
            | some j => rw [hx] at h4; simp at h4
          simp only [hc]
        | none =>
          cases hany : spanSearch text.toList [lbrace, '['] [rbrace, ']'] with
          | some cap =>
            rw [hany] at h5
            simp only [stageRecovers] at h5
            have hc : json_loads cap = none := by
              cases hx : json_loads cap with
              | none => rfl
              | some j => rw [hx] at h5; simp at h5
            simp only [hc]
          | none => rfl

theorem claim_C3_witness :
    noRecoverableJson "hello there" = true ∧
    _extract_json_from_response "hello there" = Except.ok default_action_plan :=
  ⟨rfl, (claim_C3 "hello there").2 rfl⟩

/-- A text on which stage 3 (`{...}` span) matches but fails to parse,
while stage 4 (`[...]` span) would recover `[1]`. -/
def mixedInput : String := "x \x7bbad\x7d [1]"

/-- C5 counterexample: on `mixedInput` the `{...}` stage matches
`{bad}`, whose content does not parse; the claim says the `[...]` stage
is then still attempted (which would yield `[1]`), but the extractor
returns the sentinel instead — the later stage is not attempted. -/
theorem claim_C5_counterexample :
    json_loads mixedInput = none ∧
    fencedSearch mixedInput.toList = none ∧
    spanSearch mixedInput.toList [lbrace] [rbrace] = some "\x7bbad\x7d" ∧
    json_loads "\x7bbad\x7d" = none ∧
    spanSearch mixedInput.toList ['['] [']'] = some "[1]" ∧
    json_loads "[1]" = some (Json.arr [Json.num 1]) ∧
    _extract_json_from_response mixedInput = Except.ok default_action_plan ∧
    default_action_plan ≠ Json.arr [Json.num 1] := by
  refine ⟨rfl, rfl, rfl, rfl, rfl, rfl, rfl, ?_⟩
  intro hcontra
  unfold default_action_plan at hcontra
  exact Json.noConfusion hcontra

/-- C5 (amended): the stages run in order, but each regex stage is
attempted only when no earlier regex stage matched — the first stage
whose regex matches is final, and when its captured content fails to
parse the extractor returns the sentinel immediately without attempting
any later stage.  (Only the failure of whole-text parsing, stage 1,
falls through to the regex stages.)  Shown here for a matching stage 3;
the inner exception handler converts its parse failure straight into
the sentinel. -/
theorem claim_C5 (text cap : String)
    (h1 : json_loads text = none)
    (h2 : fencedSearch text.toList = none)
    (h3 : spanSearch text.toList [lbrace] [rbrace] = some cap)
    (h4 : json_loads cap = none) :
    _extract_json_from_response text = Except.ok default_action_plan := by
  unfold _extract_json_from_response extract_fallback_stages
  simp only [h1, h2, h3, h4]

theorem claim_C5_witness :
    _extract_json_from_response "\x7by\x7d end" = Except.ok default_action_plan :=
  claim_C5 "\x7by\x7d end" "\x7by\x7d" rfl rfl rfl rfl

/-- An inactive agent, as stored in the registry. -/
def agentInactive : Agent :=
  { id := 1, name := "Demo Agent", description := "demo",
    code := fun _ => AgentProg.done (some (Json.str "ran")),
    config := Json.obj [], is_active := false, tools := [] }

def worldInactive : World :=
  { db := { agents := [agentInactive], tools := [], logs := [], nextLogId := 1 },
    net := [] }

/-- C6 counterexample: the agent with id 1 has `is_active = false`, yet
`execute_agent` raises nothing — it runs the stored code and returns a
success result.  The claim that an inactive agent id raises a not-found
error before the code executes is false: `execute_agent` never reads
the active flag. -/
theorem claim_C6_counterexample :
    agentInactive.is_active = false ∧
    execute_agent envBase worldInactive (Json.num 1)
        (Json.obj [("action", Json.str "go"), ("parameters", Json.obj [])]) =
      (worldInactive, Except.ok
        { agent_id := Json.num 1, agent_name := "Demo Agent",
          action := Json.str "go", status := "success",
          result := Json.str "ran", error := none }) :=
  ⟨rfl, rfl⟩

/-- C6 (amended): only an `agent_id` that matches no stored agent at
all raises `ValueError("Agent {id} not found")` before any code runs
(leaving the world untouched); the active flag is not consulted, so an
inactive agent's stored code is executed exactly like an active
one's. -/
theorem claim_C6 (env : Env) (w : World) (idv ad : Json)
    (h : get_agent w.db idv = none) :
    execute_agent env w idv ad =
      (w, Except.error ("Agent " ++ jsonPyStr idv ++ " not found")) := by
  unfold execute_agent
  rw [h]

theorem claim_C6_witness :
    execute_agent envBase
        { db := { agents := [], tools := [], logs := [], nextLogId := 1 },
          net := [] } (Json.num 7) (Json.obj []) =
      ({ db := { agents := [], tools := [], logs := [], nextLogId := 1 },
         net := [] },
        Except.error ("Agent " ++ jsonPyStr (Json.num 7) ++ " not found")) :=
  claim_C6 envBase _ (Json.num 7) (Json.obj []) rfl

/-- A stored audit-log row. -/
def logSample : ToolLog :=
  { id := 1, tool_id := 1, action := "get_repos", status := "success",
    details := LogDetails.paramsOnly {}, error_message := none }

def dbWithLog : DB :=
  { agents := [], tools := [], logs := [logSample], nextLogId := 2 }

/-- C7 counterexample: `ToolService.delete_log` is an operation of this
service and it deletes a `ToolLog` record — after `delete_log` on the
stored log's id, the log table is empty, refuting "no operation of this
core mutates or deletes a ToolLog record". -/
theorem claim_C7_counterexample :
    dbWithLog.logs = [logSample] ∧
    ((delete_log dbWithLog 1).1).logs = [] ∧
    (delete_log dbWithLog 1).2 = some logSample :=
  ⟨rfl, rfl, rfl⟩

/-- C7 (amended): the execution-pipeline operations — the log writer,
the three adapters, the `execute_tool` capability, the sandbox and the
query resolver — never mutate or delete existing `ToolLog` rows: each
leaves the log table an extension of what it was.  (The service does,
however, also expose `delete_log` and `delete_tool`, which delete log
rows; the append-only property holds only for the execution
pipeline.) -/
theorem claim_C7 :
    (∀ (db : DB) (tid : Int) (a st : String) (d : LogDetails)
        (em : Option String),
      ((log_tool_action db tid a st d em).1).logs =
        db.logs ++ [(log_tool_action db tid a st d em).2]) ∧
    (∀ env w tid a p, ∃ new,
      ((execute_github_action env w tid a p).1).db.logs = w.db.logs ++ new) ∧
    (∀ env w tid a p, ∃ new,
      ((execute_slack_action env w tid a p).1).db.logs = w.db.logs ++ new) ∧
    (∀ env w tid a p, ∃ new,
      ((execute_jira_action env w tid a p).1).db.logs = w.db.logs ++ new) ∧
    (∀ env w ag tid ta tp, ∃ new,
      ((execute_tool env w ag tid ta tp).1).db.logs = w.db.logs ++ new) ∧
    (∀ env w idv ad, ∃ new,
      ((execute_agent env w idv ad).1).db.logs = w.db.logs ++ new) ∧
    (∀ env w q, ∃ new,
      ((process_query env w q).1).db.logs = w.db.logs ++ new) :=
  ⟨fun _ _ _ _ _ _ => rfl,
   fun env w tid a p => (execute_github_action_dbStep env w tid a p).2.2,
   fun env w tid a p => (execute_slack_action_dbStep env w tid a p).2.2,
   fun env w tid a p => (execute_jira_action_dbStep env w tid a p).2.2,
   fun env w ag tid ta tp => (execute_tool_dbStep env w ag tid ta tp).2.2,
   fun env w idv ad => (execute_agent_dbStep env w idv ad).2.2,
   fun env w q => (process_query_dbStep env w q).2.2⟩

/-- C8: per-domain action-name normalization is idempotent (every value
of each alias table is itself a fixed point — e.g. `list_issues` maps
to itself), and an action name that is not a key of the domain's table
passes through unchanged. -/
theorem claim_C8 (x : String) :
    normalize_action github_action_mapping
        (normalize_action github_action_mapping x) =
      normalize_action github_action_mapping x ∧
    normalize_action slack_action_mapping
        (normalize_action slack_action_mapping x) =
      normalize_action slack_action_mapping x ∧
    (lookupStr github_action_mapping x = none →
      normalize_action github_action_mapping x = x) ∧
    (lookupStr slack_action_mapping x = none →
      normalize_action slack_action_mapping x = x) := by
  refine ⟨normalize_action_idem_of_closed _ ?_ x,
    normalize_action_idem_of_closed _ ?_ x,
    fun h => by unfold normalize_action; rw [h],
    fun h => by unfold normalize_action; rw [h]⟩
  · decide
  · decide

theorem claim_C8_witness :
    normalize_action github_action_mapping "deploy" = "deploy" ∧
    normalize_action slack_action_mapping
        (normalize_action slack_action_mapping "dm") =
      normalize_action slack_action_mapping "dm" :=
  ⟨(claim_C8 "deploy").2.2.1 rfl, (claim_C8 "dm").2.1⟩

/-- The capability check of `execute_tool` in isolation: an unknown or
non-associated tool id raises before any dispatch, leaving the world —
logs and network trace — untouched. -/
theorem execute_tool_not_found (env : Env) (w : World) (ag : Agent)
    (tid : Int) (ta : String) (tp : Params)
    (h : ag.tools.find? (fun t => t.id == tid) = none) :
    execute_tool env w ag tid ta tp =
      (w, Except.error ("Tool " ++ toString tid ++
        " not found or not associated with this agent")) := by
  unfold execute_tool
  rw [h]

/-- C2: a tool id outside the agent's own tool set makes `execute_tool`
raise its not-found error before dispatching to any adapter — the world
(including the network-call trace and the log table) is returned
unchanged, so no network call is performed — and the sandbox converts
the resulting failure of the agent's code into an error-status
`ExecutionResult` rather than a crash. -/
theorem claim_C2 (env : Env) (w : World) (ag : Agent) (tid : Int)
    (ta : String) (tp : Params) (idv ad : Json)
    (kk : ToolResult → AgentProg)
    (h : ∀ t ∈ ag.tools, t.id ≠ tid) :
    (execute_tool env w ag tid ta tp =
      (w, Except.error ("Tool " ++ toString tid ++
        " not found or not associated with this agent"))) ∧
    (get_agent w.db idv = some ag →
      ag.code = (fun _ => AgentProg.invokeTool tid ta tp (fun res =>
        match res with
        | Except.ok v => kk v
        | Except.error e => AgentProg.fail e)) →
      execute_agent env w idv ad =
        (w, Except.ok
          { agent_id := idv, agent_name := ag.name,
            action := dictGetD ad "action" (Json.str ""),
            status := "error",
            result := Json.str ("Failed to execute agent code: Tool " ++
              toString tid ++ " not found or not associated with this agent"),
            error := some ("Tool " ++ toString tid ++
              " not found or not associated with this agent") })) := by
  have hnone : ag.tools.find? (fun t => t.id == tid) = none :=
    List.find?_eq_none.mpr (fun t ht hb => h t ht (by simpa using hb))
  have h1 := execute_tool_not_found env w ag tid ta tp hnone
  refine ⟨h1, fun hag hcode => ?_⟩
  unfold execute_agent
  simp only [hag, hcode]
  simp only [runAgentProg, h1]
  simp only [← String.append_assoc]
  rfl

def agentNoTools : Agent :=
  { id := 3, name := "Lonely Agent", description := "",
    code := fun _ => AgentProg.invokeTool 5 "get_repos" {} (fun res =>
      match res with
      | Except.ok _ => AgentProg.done (some Json.null)
      | Except.error e => AgentProg.fail e),
    config := Json.obj [], is_active := true, tools := [] }

def worldLonely : World :=
  { db := { agents := [agentNoTools], tools := [], logs := [], nextLogId := 1 },
    net := [] }

theorem claim_C2_witness :
    (execute_tool envBase worldLonely agentNoTools 5 "get_repos" {} =
      (worldLonely, Except.error ("Tool " ++ toString (5 : Int) ++
        " not found or not associated with this agent"))) ∧
    execute_agent envBase worldLonely (Json.num 3) (Json.obj []) =
      (worldLonely, Except.ok
        { agent_id := Json.num 3, agent_name := "Lonely Agent",
          action := Json.str "", status := "error",
          result := Json.str ("Failed to execute agent code: Tool " ++
            toString (5 : Int) ++
            " not found or not associated with this agent"),
          error := some ("Tool " ++ toString (5 : Int) ++
            " not found or not associated with this agent") }) :=
  have hc := claim_C2 envBase worldLonely agentNoTools 5 "get_repos" {}
    (Json.num 3) (Json.obj [])
    (fun _ => AgentProg.done (some Json.null))
    (fun t ht => absurd ht (List.not_mem_nil t))
  ⟨hc.1, hc.2 rfl rfl⟩

/-- A registered GitHub-type tool and a registry holding it. -/
def toolGh : Tool :=
  { id := 1, name := "GitHub", description := "", type := "github",
    config := Json.obj [], is_active := true }

def worldGh : World :=
  { db := { agents := [], tools := [toolGh], logs := [], nextLogId := 1 },
    net := [] }

/-- C1 counterexample: an invocation on an existing tool of the
matching type, but with no credential configured, raises before the
adapter's `try` block — and writes zero `ToolLog` records, not one. -/
theorem claim_C1_counterexample :
    (execute_github_action envBase worldGh 1 "get_repos" {}).2 =
      Except.error "GitHub token not configured" ∧
    ((execute_github_action envBase worldGh 1 "get_repos" {}).1).db.logs = [] :=
  ⟨rfl, rfl⟩

/-- C1 (amended): provided the tool exists with the adapter's type and
the corresponding credential is configured (non-empty), every
invocation of `execute_github_action` / `execute_slack_action` /
`execute_jira_action` appends exactly one `ToolLog` record — written
before the adapter returns or re-raises — whose status is `success`
when the adapter returns normally and `error` when it raises.  (When
the tool/type check or the credential check fails, the adapter raises
before its `try` block and writes no record.) -/
theorem claim_C1 (env : Env) (w : World) (tid : Int) (a : String)
    (p : Params) (t : Tool) :
    (get_tool w.db tid = some t → t.type = "github" →
      env.githubToken.getD "" ≠ "" →
      ∃ entry, ((execute_github_action env w tid a p).1).db.logs =
          w.db.logs ++ [entry] ∧
        entry.tool_id = tid ∧ entry.action = a ∧
        entry.status =
          cond (exceptOk (execute_github_action env w tid a p).2)
            "success" "error") ∧
    (get_tool w.db tid = some t → t.type = "slack" →
      env.slackToken.getD "" ≠ "" →
      ∃ entry, ((execute_slack_action env w tid a p).1).db.logs =
          w.db.logs ++ [entry] ∧
        entry.tool_id = tid ∧ entry.action = a ∧
        entry.status =
          cond (exceptOk (execute_slack_action env w tid a p).2)
            "success" "error") ∧
    (get_tool w.db tid = some t → t.type = "jira" →
      env.jiraToken.getD "" ≠ "" →
      ∃ entry, ((execute_jira_action env w tid a p).1).db.logs =
          w.db.logs ++ [entry] ∧
        entry.tool_id = tid ∧ entry.action = a ∧
        entry.status =
          cond (exceptOk (execute_jira_action env w tid a p).2)
            "success" "error") := by
  refine ⟨?_, ?_, ?_⟩
  · intro hg ht htok
    have hbe : (env.githubToken.getD "" == "") = false :=
      beq_eq_false_iff_ne.mpr htok
    unfold execute_github_action
    simp only [hg, ht, hbe]
    rcases hb : github_try_body env a p with ⟨calls, body⟩
    cases body with
    | ok r => exact ⟨_, rfl, rfl, rfl, rfl⟩
    | error e => exact ⟨_, rfl, rfl, rfl, rfl⟩
  · intro hg ht htok
    have hbe : (env.slackToken.getD "" == "") = false :=
      beq_eq_false_iff_ne.mpr htok
    unfold execute_slack_action
    simp only [hg, ht, hbe]
    rcases hb : slack_try_body env a p with ⟨calls, body⟩
    cases body with
    | ok r => exact ⟨_, rfl, rfl, rfl, rfl⟩
    | error e => exact ⟨_, rfl, rfl, rfl, rfl⟩
  · intro hg ht htok
    have hbe : (env.jiraToken.getD "" == "") = false :=
      beq_eq_false_iff_ne.mpr htok
    unfold execute_jira_action
    simp only [hg, ht, hbe]
    rcases hb : jira_try_body env a p with ⟨calls, body⟩
    cases body with
    | ok r => exact ⟨_, rfl, rfl, rfl, rfl⟩
    | error e => exact ⟨_, rfl, rfl, rfl, rfl⟩

def envGh : Env := { envBase with githubToken := some "gh-token" }

theorem claim_C1_witness :
    ∃ entry,
      ((execute_github_action envGh worldGh 1 "unknown_action" {}).1).db.logs =
        worldGh.db.logs ++ [entry] ∧
      entry.tool_id = 1 ∧ entry.action = "unknown_action" ∧
      entry.status =
        cond (exceptOk (execute_github_action envGh worldGh 1
          "unknown_action" {}).2) "success" "error" :=
  (claim_C1 envGh worldGh 1 "unknown_action" {} toolGh).1 rfl rfl (by decide)

/-- C9: for `get_repos` with a limit of 3 and an upstream page of 10
repositories, with none of the optional post-filters present, the
adapter returns exactly the transforms of the first 3 upstream
repositories, in upstream order (the limit is a `take` applied after
the per-item transformation and the filter stages, so it preserves
order) — and the returned list has length exactly 3. -/
theorem claim_C9 (env : Env) (w : World) (tid : Int) (p : Params)
    (t : Tool) (repos : List RepoRaw)
    (hg : get_tool w.db tid = some t) (ht : t.type = "github")
    (htok : env.githubToken.getD "" ≠ "")
    (hresp : env.userRepos
        { per_page := p.per_page.getD 10, sort := p.sort_by.getD "updated",
          direction := p.sort_direction.getD "desc" } = Except.ok repos)
    (hlen : repos.length = 10)
    (hlang : p.language = none) (hfork : p.is_fork = none)
    (hpriv : p.is_private = none) (hlim : p.limit = some 3) :
    (execute_github_action env w tid "get_repos" p).2 =
      Except.ok (GithubResult.repos ((repos.take 3).map transformRepo)) ∧
    ((repos.take 3).map transformRepo).length = 3 := by
  have hproc : processRepos p repos = (repos.take 3).map transformRepo := by
    unfold processRepos
    rw [hlang, hfork, hpriv, hlim]
    simp [List.map_take]
  constructor
  · have hbe : (env.githubToken.getD "" == "") = false :=
      beq_eq_false_iff_ne.mpr htok
    unfold execute_github_action github_try_body
    simp only [hg, ht, hbe, hresp, hproc]
    rfl
  · rw [List.length_map, List.length_take, hlen]
    decide

def mkRepoRaw (i : Int) : RepoRaw :=
  { name := "repo" ++ toString i, description := none, html_url := "u",
    stargazers_count := i, forks_count := 0, language := none,
    created_at := "c", updated_at := "u", pushed_at := "p",
    «private» := false, fork := false, size := 0 }

/-- An upstream page of 10 repositories. -/
def upstreamRepos : List RepoRaw := (List.range 10).map (fun i => mkRepoRaw i)

def envRepos : Env :=
  { envBase with githubToken := some "gh-token",
                 userRepos := fun _ => Except.ok upstreamRepos }

theorem claim_C9_witness :
    (execute_github_action envRepos worldGh 1 "get_repos"
        { limit := some 3 }).2 =
      Except.ok (GithubResult.repos
        ((upstreamRepos.take 3).map transformRepo)) ∧
    ((upstreamRepos.take 3).map transformRepo).length = 3 :=
  claim_C9 envRepos worldGh 1 { limit := some 3 } toolGh upstreamRepos
    rfl rfl (by decide) rfl rfl rfl rfl rfl rfl

/-- A registered Slack-type tool, a messaging agent holding it, and a
query environment whose model resolves to that agent. -/
def toolSlack : Tool :=
  { id := 1, name := "Slack Tool", description := "", type := "slack",
    config := Json.obj [], is_active := true }

def paramsMsg : Params := { channel := some "#general", message := some "hello" }

def agentSlack : Agent :=
  { id := 1, name := "Slack Agent", description := "",
    code := fun _ => AgentProg.invokeTool 1 "send_message" paramsMsg (fun res =>
      match res with
      | Except.ok _ => AgentProg.done (some Json.null)
      | Except.error e => AgentProg.fail e),
    config := Json.obj [], is_active := true, tools := [toolSlack] }

def worldSlack : World :=
  { db := { agents := [agentSlack], tools := [toolSlack], logs := [],
            nextLogId := 1 },
    net := [] }

def contentSlack : String :=
  "\x7b\"agent_id\": 1, \"action\": \"send_message\", \"parameters\": \x7b\"channel\": \"#general\", \"message\": \"hello\"\x7d\x7d"

def envSlack : Env :=
  { envBase with
      llm := Except.ok (contentSlack, Json.obj [("total_tokens", Json.num 42)]) }

/-- C4 counterexample: with no `SLACK_TOKEN` configured the adapter
does raise "Slack token not configured", but it raises before its
`try`/log block — the invocation writes zero audit-log entries, not
one; and the final `process_query` response for the resolved scenario
has status `success` (with the failure inside `result`), not `error` —
the only log row written is the resolver's own `nl_query` entry. -/
theorem claim_C4_counterexample :
    execute_slack_action envSlack worldSlack 1 "send_message" paramsMsg =
      (worldSlack, Except.error "Slack token not configured") ∧
    worldSlack.db.logs = [] ∧
    ((process_query envSlack worldSlack
        "send \x27hello\x27 to #general").2).status = "success" ∧
    (((process_query envSlack worldSlack
        "send \x27hello\x27 to #general").1).db.logs.map ToolLog.action) =
      ["nl_query"] :=
  ⟨rfl, rfl, by decide, by decide⟩

/-- C4 (amended): with the tool present and of type `slack` but no
`SLACK_TOKEN` configured, `execute_slack_action` raises
`ValueError("Slack token not configured")` before its `try` block,
leaving the world — including the log table — unchanged (zero audit
entries for the invocation); and the sandbox converts the failure of an
agent invoking that tool into an error-status `ExecutionResult`.  (The
outward `process_query` response for the resolved scenario then has
status `success`, with only the resolver's own `nl_query` log row
written — see the counterexample.) -/
theorem claim_C4 (env : Env) (w : World) (tid : Int) (a : String)
    (p : Params) (t t2 : Tool) (ag : Agent) (idv ad : Json)
    (kk : ToolResult → AgentProg) :
    (get_tool w.db tid = some t → t.type = "slack" →
      env.slackToken = none →
      execute_slack_action env w tid a p =
        (w, Except.error "Slack token not configured")) ∧
    (get_agent w.db idv = some ag →
      ag.tools.find? (fun tl => tl.id == tid) = some t2 →
      t2.type = "slack" →
      get_tool w.db tid = some t → t.type = "slack" →
      env.slackToken = none →
      ag.code = (fun _ => AgentProg.invokeTool tid a p (fun res =>
        match res with
        | Except.ok v => kk v
        | Except.error e => AgentProg.fail e)) →
      execute_agent env w idv ad =
        (w, Except.ok
          { agent_id := idv, agent_name := ag.name,
            action := dictGetD ad "action" (Json.str ""),
            status := "error",
            result := Json.str
              "Failed to execute agent code: Slack token not configured",
            error := some "Slack token not configured" })) := by
  constructor
  · intro hg ht htokn
    unfold execute_slack_action
    simp only [hg, ht, htokn]
    rfl
  · intro hag hfind ht2 hg ht htokn hcode
    have hslackeq : execute_slack_action env w tid a p =
        (w, Except.error "Slack token not configured") := by
      unfold execute_slack_action
      simp only [hg, ht, htokn]
      rfl
    have htool : execute_tool env w ag tid a p =
        (w, Except.error "Slack token not configured") := by
      unfold execute_tool
      simp only [hfind, ht2, hslackeq]
      rfl
    unfold execute_agent
    simp only [hag, hcode]
    simp only [runAgentProg, htool]
    rfl

theorem claim_C4_witness :
    execute_slack_action envSlack worldSlack 1 "send_message" paramsMsg =
      (worldSlack, Except.error "Slack token not configured") ∧
    execute_agent envSlack worldSlack (Json.num 1)
        (Json.obj [("action", Json.str "send_message"),
          ("parameters", Json.obj [])]) =
      (worldSlack, Except.ok
        { agent_id := Json.num 1, agent_name := "Slack Agent",
          action := Json.str "send_message", status := "error",
          result := Json.str
            "Failed to execute agent code: Slack token not configured",
          error := some "Slack token not configured" }) :=
  have hc := claim_C4 envSlack worldSlack 1 "send_message" paramsMsg
    toolSlack toolSlack agentSlack (Json.num 1)
    (Json.obj [("action", Json.str "send_message"),
      ("parameters", Json.obj [])])
    (fun _ => AgentProg.done (some Json.null))
  ⟨hc.1 rfl rfl rfl, hc.2 rfl rfl rfl rfl rfl rfl rfl⟩

/-- C10: whenever the model call succeeds, the (mapped) action plan has
a truthy `agent_id` resolving to a stored agent, and a tool id is
selectable for the log, `process_query` returns an outward response of
status `success` carrying the `ExecutionResult` — whatever that
result's own status is, since `execute_agent` returns normally even
when the agent's code failed — and appends one `nl_query` log row with
status `success` after whatever rows the execution itself wrote. -/
theorem claim_C10 (env : Env) (w : World) (query content : String)
    (usage plan : Json) (ag : Agent) (tid : Int)
    (hllm : env.llm = Except.ok (content, usage))
    (hplan : plan_after_mapping (github_agent_id_of (w.db.agents.take 10))
        (slack_agent_id_of (w.db.agents.take 10)) content = Except.ok plan)
    (htr : jsonTruthy (dictGet plan "agent_id") = true)
    (hag : get_agent w.db (dictGet plan "agent_id") = some ag)
    (hsel : ∀ db : DB, db.tools = w.db.tools →
      selectLogToolId plan ag db = some tid) :
    ((process_query env w query).2).status = "success" ∧
    (∃ r, ((process_query env w query).2).result = some r) ∧
    (∃ pre entry, ((process_query env w query).1).db.logs =
        w.db.logs ++ pre ++ [entry] ∧
      entry.action = "nl_query" ∧ entry.status = "success" ∧
      entry.tool_id = tid) := by
  obtain ⟨r0, hr0⟩ := execute_agent_found_ok env w (dictGet plan "agent_id")
    (Json.obj [("action", dictGetD plan "action" (Json.str "default")),
      ("parameters", dictGetD plan "parameters" (Json.obj []))]) ag hag
  rcases hex : execute_agent env w (dictGet plan "agent_id")
      (Json.obj [("action", dictGetD plan "action" (Json.str "default")),
        ("parameters", dictGetD plan "parameters" (Json.obj []))]) with ⟨w1, r2⟩
  have hr2 : r2 = Except.ok r0 := by rw [hex] at hr0; exact hr0
  subst hr2
  obtain ⟨hagents, htools, pre, hlogs⟩ :=
    execute_agent_pair_dbStep env w _ _ _ _ hex
  have hseltid : selectLogToolId plan ag w1.db = some tid := hsel w1.db htools
  unfold process_query
  simp only [hllm, hplan, htr, hag, hex, hseltid]
  refine ⟨rfl, ⟨r0, rfl⟩, pre,
    { id := w1.db.nextLogId, tool_id := tid, action := "nl_query",
      status := "success",
      details := LogDetails.nlQuery query plan r0.toJson usage,
      error_message := none }, ?_, rfl, rfl, rfl⟩
  show w1.db.logs ++ [_] = w.db.logs ++ pre ++ [_]
  rw [hlogs]

/-- An agent whose stored code always raises, with one associated
tool. -/
def toolHelper : Tool :=
  { id := 1, name := "Helper Tool", description := "", type := "jira",
    config := Json.obj [], is_active := true }

def agentFailing : Agent :=
  { id := 1, name := "Helper Agent", description := "",
    code := fun _ => AgentProg.fail "boom",
    config := Json.obj [], is_active := true, tools := [toolHelper] }

def worldHelper : World :=
  { db := { agents := [agentFailing], tools := [toolHelper], logs := [],
            nextLogId := 1 },
    net := [] }

def contentHelper : String :=
  "\x7b\"agent_id\": 1, \"action\": \"do\", \"parameters\": \x7b\x7d\x7d"

def planHelper : Json :=
  Json.obj [("agent_id", Json.num 1), ("action", Json.str "do"),
    ("parameters", Json.obj [])]

def envHelper : Env :=
  { envBase with
      llm := Except.ok (contentHelper, Json.obj [("total_tokens", Json.num 7)]) }

theorem claim_C10_witness :
    (((process_query envHelper worldHelper "do the thing").2).status =
        "success" ∧
      (∃ r, ((process_query envHelper worldHelper "do the thing").2).result =
        some r) ∧
      (∃ pre entry,
        ((process_query envHelper worldHelper "do the thing").1).db.logs =
          worldHelper.db.logs ++ pre ++ [entry] ∧
        entry.action = "nl_query" ∧ entry.status = "success" ∧
        entry.tool_id = 1)) ∧
    ((process_query envHelper worldHelper "do the thing").2).result =
      some { agent_id := Json.num 1, agent_name := "Helper Agent",
             action := Json.str "do", status := "error",
             result := Json.str "Failed to execute agent code: boom",
             error := some "boom" } :=
  ⟨claim_C10 envHelper worldHelper "do the thing" contentHelper
      (Json.obj [("total_tokens", Json.num 7)]) planHelper agentFailing 1
      rfl rfl (by decide) rfl (fun _ _ => rfl),
    rfl⟩
